import Mathlib

/-!
Verification of the ha-water-tank-sensor firmware against its specification.

Each section embeds one module of the firmware (crates/app/src) as executable
Lean definitions, translated directly from the Rust source, and proves the
spec claims about it.  Machine integers (u32, u64) are modelled as Nat with
explicit wrapping or truncation where the source can overflow; f32 and f64
arithmetic is modelled over the rationals; fallible code returns Except or
Option; stateful interactions with hardware are modelled by explicit
environment streams indexed by call number.
-/

namespace WaterTank

/-! ## Persistent Clock (crates/app/src/clock.rs)

The ambient tick counter (embassy Instant, whole seconds since the
current boot) is passed explicitly as an argument wherever the source
reads it.  RTC fast memory is the explicit pair returned by
save_to_rtc_memory.
-/

/-- Model of clock.rs Clock: boot_time is the Unix epoch of the moment the
device booted, offset the UTC offset in whole seconds (source type
time::UtcOffset, stored as its whole-second value). -/
structure Clock where
  boot_time : ℕ
  offset : ℤ
  deriving DecidableEq

/-- clock.rs now_as_epoch: boot_time + seconds elapsed since boot.
The elapsed-ticks value (Instant::now().as_secs() in the source) is the
explicit argument ticks_since_boot. -/
def Clock.now_as_epoch (c : Clock) (ticks_since_boot : ℕ) : ℕ :=
  c.boot_time + ticks_since_boot

/-- clock.rs save_to_rtc_memory: writes the pair
(now_as_epoch + expected_sleep_duration seconds, offset in whole seconds)
into RTC fast memory (the static BOOT_TIME).  The written memory is the
return value. -/
def Clock.save_to_rtc_memory (c : Clock) (ticks_since_boot sleep_secs : ℕ) : ℕ × ℤ :=
  (c.now_as_epoch ticks_since_boot + sleep_secs, c.offset)

/-- Largest whole-second value accepted by time::UtcOffset::from_whole_seconds,
namely 25:59:59 = 93599 seconds (either sign). -/
def UTC_OFFSET_MAX_ABS_SECONDS : ℕ := 93599

/-- clock.rs from_rtc_memory: reads the persisted pair; yields none when the
persisted epoch is zero or the persisted offset is not a valid UtcOffset,
otherwise Clock::new(now, offset), whose boot_time subtracts the ticks
elapsed since the (new) boot. -/
def Clock.from_rtc_memory (mem : ℕ × ℤ) (ticks_since_boot : ℕ) : Option Clock :=
  if mem.1 = 0 then none
  else if mem.2.natAbs ≤ UTC_OFFSET_MAX_ABS_SECONDS then
    some { boot_time := mem.1 - ticks_since_boot, offset := mem.2 }
  else none

/-- clock.rs next_rounded_wakeup, at whole-second granularity (the source
converts embassy Durations to seconds with as_secs before dividing):
(now + period) / period * period in integer arithmetic. -/
def next_rounded_wakeup (now period : ℕ) : ℕ :=
  ((now + period) / period) * period

/-- clock.rs duration_to_next_rounded_wakeup: next_rounded_wakeup minus now. -/
def duration_to_next_rounded_wakeup (now period : ℕ) : ℕ :=
  next_rounded_wakeup now period - now

/-- C4: for every current epoch now and non-zero period,
next_rounded_wakeup(now, period) is now + period rounded down to the nearest
multiple of period (it is a multiple of period, is at most now + period, and
exceeds now + period - period); at 09:46:12 (epoch 35172 within the day) the
result is 09:47:00 (35220) for a 1-minute period, 09:50:00 (35400) for a
5-minute period, and 10:00:00 (36000) for a 1-hour period. -/
theorem C4_next_rounded_wakeup (now period : ℕ) (hp : 0 < period) :
    next_rounded_wakeup now period % period = 0 ∧
    next_rounded_wakeup now period ≤ now + period ∧
    now + period < next_rounded_wakeup now period + period ∧
    next_rounded_wakeup 35172 60 = 35220 ∧
    next_rounded_wakeup 35172 300 = 35400 ∧
    next_rounded_wakeup 35172 3600 = 36000 := by
  refine ⟨Nat.mul_mod_left _ _, Nat.div_mul_le_self _ _, ?_, by decide, by decide, by decide⟩
  calc now + period
      = period * ((now + period) / period) + (now + period) % period :=
        (Nat.div_add_mod _ _).symm
    _ < period * ((now + period) / period) + period :=
        Nat.add_lt_add_left (Nat.mod_lt _ hp) _
    _ = next_rounded_wakeup now period + period := by
        unfold next_rounded_wakeup; rw [Nat.mul_comm]

/-- Witness for C4 at now = 35172 (09:46:12), period = 60. -/
theorem C4_next_rounded_wakeup_witness :
    next_rounded_wakeup 35172 60 = 35220 ∧ next_rounded_wakeup 35172 60 % 60 = 0 :=
  ⟨(C4_next_rounded_wakeup 35172 60 (by norm_num)).2.2.2.1,
   (C4_next_rounded_wakeup 35172 60 (by norm_num)).1⟩

/-- C5 counterexample: the claim quantifies over every clock and every sleep
duration, but a clock that persists epoch zero (boot_time 0, read at tick 0,
sleep 0) is restored as none by from_rtc_memory, not as some clock. -/
theorem C5_persist_restore_counterexample :
    Clock.from_rtc_memory (Clock.save_to_rtc_memory ⟨0, 0⟩ 0 0) 0 = none := rfl

/-- C5 (amended): provided the persisted epoch now_as_epoch + d is non-zero
and the clock offset is a valid UtcOffset value, save_to_rtc_memory stores
now_as_epoch() + d together with the current offset, and from_rtc_memory at
any tick t2 of the next boot (tick counter restarted at zero, t2 not past the
persisted epoch) returns some clock whose now_as_epoch at that instant equals
the original now_as_epoch() + d exactly — difference zero, hence below one
tick period. -/
theorem C5_persist_restore (c : Clock) (t d t2 : ℕ)
    (hoff : c.offset.natAbs ≤ UTC_OFFSET_MAX_ABS_SECONDS)
    (hpos : 0 < c.now_as_epoch t + d)
    (ht2 : t2 ≤ c.now_as_epoch t + d) :
    (Clock.save_to_rtc_memory c t d).1 = c.now_as_epoch t + d ∧
    (Clock.save_to_rtc_memory c t d).2 = c.offset ∧
    ∃ c2 : Clock,
      Clock.from_rtc_memory (Clock.save_to_rtc_memory c t d) t2 = some c2 ∧
      c2.now_as_epoch t2 = c.now_as_epoch t + d := by
  refine ⟨rfl, rfl, ⟨⟨c.now_as_epoch t + d - t2, c.offset⟩, ?_, ?_⟩⟩
  · unfold Clock.from_rtc_memory Clock.save_to_rtc_memory
    rw [if_neg (by omega), if_pos hoff]
  · simp only [Clock.now_as_epoch] at *
    omega

/-- Witness for C5 (amended): persisted epoch 1,700,000,000 s with a 30 s
sleep restores to exactly 1,700,000,030 s. -/
theorem C5_persist_restore_witness :
    ∃ c2 : Clock,
      Clock.from_rtc_memory (Clock.save_to_rtc_memory ⟨1700000000, 0⟩ 0 30) 0 = some c2 ∧
      c2.now_as_epoch 0 = 1700000030 := by
  have h := (C5_persist_restore ⟨1700000000, 0⟩ 0 30 0 (by norm_num [UTC_OFFSET_MAX_ABS_SECONDS])
    (by norm_num [Clock.now_as_epoch]) (by norm_num)).2.2
  simpa [Clock.now_as_epoch] using h

/-! ## Telemetry Buffer (crates/app/src/logging.rs)

The log ring heapless::Deque of capacity MAX_STORED_LOGS is modelled as a
List whose head is the front (oldest) entry; push_back appends, pop_front
drops the head.  The retry interval of logger_task is modelled by one step
function applied per flush outcome.
-/

/-- logging.rs log levels (log::Level). -/
inductive LogLevel
  | error | warn | info | debug | trace
  deriving DecidableEq

/-- logging.rs LogEntry: level, formatted message, timestamp in ms. -/
structure LogEntry where
  level : LogLevel
  message : String
  timestamp : ℕ
  deriving DecidableEq

/-- logging.rs MAX_STORED_LOGS. -/
def MAX_STORED_LOGS : ℕ := 100

/-- logging.rs HttpLogger::store_log, ring-mutation core: when the buffer is
full (is_full, length = capacity) the oldest entry is popped from the front,
then the entry is pushed at the back.  (The push_back failure branch of the
source is unreachable once the length invariant holds, as proved below.) -/
def store_log (buf : List LogEntry) (entry : LogEntry) : List LogEntry :=
  (if buf.length = MAX_STORED_LOGS then buf.tail else buf) ++ [entry]

/-- The last k elements of a list, in order. -/
def lastN (k : ℕ) (l : List LogEntry) : List LogEntry := l.drop (l.length - k)

theorem store_log_length_le (buf : List LogEntry) (e : LogEntry)
    (h : buf.length ≤ MAX_STORED_LOGS) :
    (store_log buf e).length ≤ MAX_STORED_LOGS := by
  unfold store_log
  by_cases hful : buf.length = MAX_STORED_LOGS
  · simp [hful, MAX_STORED_LOGS]
  · simp only [if_neg hful, List.length_append, List.length_singleton]
    omega

theorem store_log_foldl_lastN (es : List LogEntry) : ∀ buf : List LogEntry,
    buf.length ≤ MAX_STORED_LOGS →
    List.foldl store_log buf es = lastN MAX_STORED_LOGS (buf ++ es) := by
  induction es with
  | nil =>
    intro buf h
    simp only [List.foldl_nil, List.append_nil, lastN, Nat.sub_eq_zero_of_le h, List.drop_zero]
  | cons e es ih =>
    intro buf h
    rw [List.foldl_cons]
    by_cases hful : buf.length = MAX_STORED_LOGS
    · obtain ⟨hd, tl, rfl⟩ : ∃ hd tl, buf = hd :: tl := by
        cases buf with
        | nil => exact absurd hful (by decide)
        | cons hd tl => exact ⟨hd, tl, rfl⟩
      have htl : tl.length + 1 = MAX_STORED_LOGS := by simpa using hful
      have hstep : store_log (hd :: tl) e = tl ++ [e] := by
        simp [store_log, hful]
      have hlen1 : (tl ++ [e]).length ≤ MAX_STORED_LOGS := by
        simp only [List.length_append, List.length_singleton]; omega
      rw [hstep, ih (tl ++ [e]) hlen1]
      unfold lastN
      rw [List.cons_append]
      have hA : tl ++ [e] ++ es = tl ++ e :: es := by simp
      rw [hA]
      have hB : (hd :: (tl ++ e :: es)).length - MAX_STORED_LOGS
          = ((tl ++ e :: es).length - MAX_STORED_LOGS) + 1 := by
        simp only [List.length_cons, List.length_append]
        omega
      rw [hB, List.drop_succ_cons]
    · have hstep : store_log buf e = buf ++ [e] := by simp [store_log, hful]
      have hlen1 : (buf ++ [e]).length ≤ MAX_STORED_LOGS := by
        simp only [List.length_append, List.length_singleton]; omega
      rw [hstep, ih (buf ++ [e]) hlen1]
      simp [List.append_assoc]

/-- C6: feeding K + M entries (M > 0, K = MAX_STORED_LOGS = 100) into the
fresh ring via store_log keeps the buffer at no more than K entries after
every step, and leaves exactly the last K entries of the fed sequence in
their original relative order (eviction is strict FIFO from the front). -/
theorem C6_log_ring_fifo (es : List LogEntry) (h : MAX_STORED_LOGS < es.length) :
    (∀ n : ℕ, (List.foldl store_log [] (es.take n)).length ≤ MAX_STORED_LOGS) ∧
    List.foldl store_log [] es = lastN MAX_STORED_LOGS es ∧
    (List.foldl store_log [] es).length = MAX_STORED_LOGS := by
  refine ⟨?_, ?_, ?_⟩
  · intro n
    induction n with
    | zero => simp [MAX_STORED_LOGS]
    | succ n ih =>
      by_cases hn : n < es.length
      · rw [List.take_succ, List.getElem?_eq_getElem hn]
        simp only [Option.toList, List.foldl_append, List.foldl_cons, List.foldl_nil]
        exact store_log_length_le _ _ ih
      · rw [List.take_succ, List.getElem?_eq_none (by omega)]
        simpa using ih
  · simpa using store_log_foldl_lastN es [] (by simp)
  · have := store_log_foldl_lastN es [] (by simp)
    simp only [List.nil_append] at this
    rw [this]
    unfold lastN
    simp
    omega

/-- A fixed 101-entry sequence for the C6 witness. -/
def c6_entries : List LogEntry :=
  (List.range (MAX_STORED_LOGS + 1)).map (fun i => ⟨LogLevel.info, "m", i⟩)

/-- Witness for C6: 101 entries fed into the capacity-100 ring leave exactly
the last 100, and the final length is 100. -/
theorem C6_log_ring_fifo_witness :
    List.foldl store_log [] c6_entries = lastN MAX_STORED_LOGS c6_entries ∧
    (List.foldl store_log [] c6_entries).length = MAX_STORED_LOGS := by
  have h : MAX_STORED_LOGS < c6_entries.length := by
    simp [c6_entries, MAX_STORED_LOGS]
  exact ⟨(C6_log_ring_fifo c6_entries h).2.1, (C6_log_ring_fifo c6_entries h).2.2⟩

/-- logging.rs logger_task base retry interval (10 s in ms). -/
def BASE_RETRY_INTERVAL_MS : ℕ := 10000

/-- logging.rs MAX_RETRY_INTERVAL (10 minutes in ms). -/
def MAX_RETRY_INTERVAL_MS : ℕ := 600000

/-- logging.rs increase_retry_interval: interval = min(interval * 2, ceiling). -/
def increase_retry_interval (interval : ℕ) : ℕ :=
  min (interval * 2) MAX_RETRY_INTERVAL_MS

/-- Outcome of one log-flush attempt in logger_task. -/
inductive FlushOutcome
  | success | failure
  deriving DecidableEq

/-- The retry-interval update logger_task performs after a flush attempt:
on success the interval is reset to 10000 ms, on failure
increase_retry_interval is applied. -/
def retry_step (interval : ℕ) : FlushOutcome → ℕ
  | .success => BASE_RETRY_INTERVAL_MS
  | .failure => increase_retry_interval interval

/-- C7: after f consecutive flush failures from the base interval b the retry
interval is min(b * 2^f, c) with c = 600000 ms, and one success after any
run of failures resets it to b. -/
theorem C7_retry_backoff (f : ℕ) :
    List.foldl retry_step BASE_RETRY_INTERVAL_MS (List.replicate f FlushOutcome.failure)
      = min (BASE_RETRY_INTERVAL_MS * 2 ^ f) MAX_RETRY_INTERVAL_MS ∧
    List.foldl retry_step BASE_RETRY_INTERVAL_MS
        (List.replicate f FlushOutcome.failure ++ [FlushOutcome.success])
      = BASE_RETRY_INTERVAL_MS := by
  constructor
  · induction f with
    | zero => simp [BASE_RETRY_INTERVAL_MS, MAX_RETRY_INTERVAL_MS]
    | succ f ih =>
      rw [List.replicate_succ', List.foldl_append, ih]
      simp only [List.foldl_cons, List.foldl_nil, retry_step, increase_retry_interval]
      have hx : BASE_RETRY_INTERVAL_MS * 2 ^ (f + 1) = BASE_RETRY_INTERVAL_MS * 2 ^ f * 2 := by
        rw [pow_succ, mul_assoc]
      rw [hx]
      generalize BASE_RETRY_INTERVAL_MS * 2 ^ f = x
      rcases le_total x MAX_RETRY_INTERVAL_MS with hle | hle
      · rw [min_eq_left hle]
      · rw [min_eq_right hle,
          min_eq_right (by omega : MAX_RETRY_INTERVAL_MS ≤ MAX_RETRY_INTERVAL_MS * 2),
          min_eq_right (by omega : MAX_RETRY_INTERVAL_MS ≤ x * 2)]
  · rw [List.foldl_append]
    simp [retry_step]

/-! ## Acquisition Pipeline: voltage stabilization (crates/app/src/sensor.rs)

wait_for_pressure_sensor_voltage_to_stabilize polls the divider-corrected
pressure-sensor voltage in an unbounded loop: an in-band poll (absolute
difference from the expected 24 V below 0.2 V) increments stable_count, an
out-of-band poll resets it to zero, and the loop exits — successfully, its
only exit — once stable_count reaches 10.  The measured voltage sequence is
the explicit stream v (poll number to volts); the raw ADC conversion uses
board resistor constants from board_components.rs, which is not part of the
sources, so the stream carries the already-converted voltage the loop
compares.  The source loop has no poll bound and no error exit, so the
embedding is step-indexed: fuel is the number of polls still allowed, and
the value none means the loop is still running after that many polls.
-/

/-- sensor.rs EXPECTED_PRESSURE_SENSOR_VOLTAGE (24 V). -/
def EXPECTED_PRESSURE_SENSOR_VOLTAGE : ℚ := 24

/-- sensor.rs wait_for_pressure_sensor_voltage_to_stabilize, step-indexed.
Arguments after the voltage stream: fuel (polls still allowed), i (current
poll number), stable_count.  Each step mirrors one loop iteration: compute
diff, update stable_count, break with success when it reaches 10, otherwise
wait and loop.  none = still looping when fuel runs out; the source has no
other exit and never constructs PressureSensorVoltageNotStable here. -/
def wait_for_pressure_sensor_voltage_to_stabilize (v : ℕ → ℚ) :
    ℕ → ℕ → ℕ → Option Unit
  | 0, _, _ => none
  | fuel + 1, i, stable_count =>
    let diff := |EXPECTED_PRESSURE_SENSOR_VOLTAGE - v i|
    let stable_count1 := if diff < 1/5 then stable_count + 1 else 0
    if stable_count1 = 10 then some ()
    else wait_for_pressure_sensor_voltage_to_stabilize v fuel (i + 1) stable_count1

theorem stabilize_succeeds (v : ℕ → ℚ) : ∀ fuel i c, c + (fuel + 1) = 10 →
    (∀ k, k ≤ fuel → |EXPECTED_PRESSURE_SENSOR_VOLTAGE - v (i + k)| < 1/5) →
    wait_for_pressure_sensor_voltage_to_stabilize v (fuel + 1) i c = some () := by
  intro fuel
  induction fuel with
  | zero =>
    intro i c hc h
    have h0 : |EXPECTED_PRESSURE_SENSOR_VOLTAGE - v i| < 1/5 := by
      simpa using h 0 (by omega)
    unfold wait_for_pressure_sensor_voltage_to_stabilize
    simp only [if_pos h0]
    rw [if_pos (by omega)]
  | succ fuel ih =>
    intro i c hc h
    have h0 : |EXPECTED_PRESSURE_SENSOR_VOLTAGE - v i| < 1/5 := by
      simpa using h 0 (by omega)
    unfold wait_for_pressure_sensor_voltage_to_stabilize
    simp only [if_pos h0]
    rw [if_neg (by omega)]
    exact ih (i + 1) (c + 1) (by omega)
      (fun k hk => by
        have := h (k + 1) (by omega)
        simpa [Nat.add_assoc, Nat.add_comm 1 k] using this)

theorem stabilize_never_inband_diverges (v : ℕ → ℚ)
    (hv : ∀ i, ¬(|EXPECTED_PRESSURE_SENSOR_VOLTAGE - v i| < 1/5)) :
    ∀ fuel i c, wait_for_pressure_sensor_voltage_to_stabilize v fuel i c = none := by
  intro fuel
  induction fuel with
  | zero => intro i c; rfl
  | succ fuel ih =>
    intro i c
    unfold wait_for_pressure_sensor_voltage_to_stabilize
    simp only [if_neg (hv i)]
    rw [if_neg (by omega)]
    exact ih (i + 1) 0

/-- C2 counterexample: a voltage sequence that never enters the tolerance
band (constant 30 V against the expected 24 V) makes the stabilization loop
run forever — no poll count ever makes it return, so it never terminates and
never surfaces PressureSensorVoltageNotStable (which the source cannot even
construct on this path). -/
theorem C2_stabilization_counterexample :
    ¬ ∃ fuel, (wait_for_pressure_sensor_voltage_to_stabilize
        (fun _ => 30) fuel 0 0).isSome := by
  rintro ⟨fuel, hsome⟩
  rw [stabilize_never_inband_diverges (fun _ => 30)
    (fun i => by norm_num [EXPECTED_PRESSURE_SENSOR_VOLTAGE]) fuel 0 0] at hsome
  exact Bool.noConfusion hsome

/-- C2 (amended): the stabilization wait returns success as soon as the
measured voltage has stayed within 0.2 V of the expected 24 V for 10
consecutive polls (here: the first 10 polls suffice, so 10 poll steps reach
success); but for every voltage sequence that never enters the tolerance
band the loop runs forever — it stays running after any number of polls and
never surfaces the PressureSensorVoltageNotStable error, so the abort branch
of read_ads1115 is unreachable from this wait. -/
theorem C2_stabilization (v w : ℕ → ℚ)
    (hv : ∀ i, i < 10 → |EXPECTED_PRESSURE_SENSOR_VOLTAGE - v i| < 1/5)
    (hw : ∀ i, ¬(|EXPECTED_PRESSURE_SENSOR_VOLTAGE - w i| < 1/5)) :
    wait_for_pressure_sensor_voltage_to_stabilize v 10 0 0 = some () ∧
    ∀ fuel i c, wait_for_pressure_sensor_voltage_to_stabilize w fuel i c = none := by
  constructor
  · have h := stabilize_succeeds v 9 0 0 (by omega)
      (fun k hk => by simpa using hv k (by omega))
    simpa using h
  · exact stabilize_never_inband_diverges w hw

/-- Witness for C2 (amended): constant 24 V stabilizes within 10 polls;
constant 30 V is still looping after 13 polls. -/
theorem C2_stabilization_witness :
    wait_for_pressure_sensor_voltage_to_stabilize (fun _ => 24) 10 0 0 = some () ∧
    wait_for_pressure_sensor_voltage_to_stabilize (fun _ => 30) 13 0 0 = none := by
  have h := C2_stabilization (fun _ => 24) (fun _ => 30)
    (fun i _ => by norm_num [EXPECTED_PRESSURE_SENSOR_VOLTAGE])
    (fun i => by norm_num [EXPECTED_PRESSURE_SENSOR_VOLTAGE])
  exact ⟨h.1, h.2 13 0 0⟩

/-! ## Acquisition Pipeline: inter-sample timer waits (crates/app/src/sensor.rs)

read_bme280, read_ads1115 and the stabilization loop build their waits as
Timer::after(Duration::from_secs(wait_interval.to_seconds() as u64)) where
wait_interval is a hifitime Duration of 0.1 s (TIME_BETWEEN_SAMPLES) or
0.010 s (stabilization check interval).  The f64-to-u64 cast truncates
toward zero (saturating at zero for negatives), so any sub-second value
becomes a zero-second wait.
-/

/-- The effect of the to_seconds() as u64 conversion: truncation toward
zero, clamped at zero for negative values (Rust float-to-unsigned cast). -/
def seconds_as_u64 (q : ℚ) : ℕ := (⌊q⌋).toNat

/-- sensor_data.rs TIME_BETWEEN_SAMPLES_IN_SECONDS (0.1 s). -/
def TIME_BETWEEN_SAMPLES_IN_SECONDS : ℚ := 1/10

/-- sensor.rs PRESSURE_SENSOR_VOLTAGE_STABILIZATION_CHECK_INTERVAL_IN_SECONDS
(0.010 s). -/
def STABILIZATION_CHECK_INTERVAL_IN_SECONDS : ℚ := 1/100

/-- The whole-second wait passed to Timer::after between samples in
read_bme280 and read_ads1115. -/
def sample_wait_duration_secs : ℕ := seconds_as_u64 TIME_BETWEEN_SAMPLES_IN_SECONDS

/-- The whole-second wait passed to Timer::after between stabilization
polls. -/
def stabilization_wait_duration_secs : ℕ :=
  seconds_as_u64 STABILIZATION_CHECK_INTERVAL_IN_SECONDS

/-- C10: the wait passed to the timer between consecutive samples and
between stabilization polls is exactly 0 seconds: the configured 0.1 s and
0.010 s intervals are truncated to zero by the as u64 cast, as is any
sub-second value (robust to the f64 rounding of the source constants), so
samples and polls run back-to-back. -/
theorem C10_timer_truncation :
    sample_wait_duration_secs = 0 ∧
    stabilization_wait_duration_secs = 0 ∧
    ∀ q : ℚ, 0 ≤ q → q < 1 → seconds_as_u64 q = 0 := by
  refine ⟨?_, ?_, ?_⟩
  · norm_num [sample_wait_duration_secs, seconds_as_u64, TIME_BETWEEN_SAMPLES_IN_SECONDS]
  · norm_num [stabilization_wait_duration_secs, seconds_as_u64,
      STABILIZATION_CHECK_INTERVAL_IN_SECONDS]
  · intro q h0 h1
    unfold seconds_as_u64
    rw [Int.floor_eq_zero_iff.mpr ⟨h0, h1⟩]
    rfl

/-- Witness for C10 (its last conjunct carries hypotheses): truncation of
the half-second value 1/2 is zero. -/
theorem C10_timer_truncation_witness : seconds_as_u64 (1/2) = 0 :=
  C10_timer_truncation.2.2 (1/2) (by norm_num) (by norm_num)

/-! ## Connection Manager (crates/app/src/wifi.rs, crates/app/src/main.rs)

The WifiController is a hardware object; its responses are modelled as
environment streams indexed by call number (one stream per controller
method).  esp_wifi::WifiError is collapsed to the two cases the code
distinguishes: Disconnected and everything else.
-/

/-- esp_wifi WifiError as the source case-splits it: the Disconnected
variant versus any other error. -/
inductive EspWifiErr
  | disconnected | other
  deriving DecidableEq

/-- wifi.rs WifiDisconnectError. -/
inductive WifiDisconnectError
  | disconnectFailed
  | verification (attempts : ℕ)
  deriving DecidableEq

/-- wifi.rs MAX_DISCONNECT_RETRIES. -/
def MAX_DISCONNECT_RETRIES : ℕ := 3

/-- Environment for disconnect_from_wifi: the result of the n-th
is_connected() call and of the n-th disconnect() call on the controller. -/
structure DisconnectEnv where
  is_connected : ℕ → Except EspWifiErr Bool
  disconnect : ℕ → Except EspWifiErr Unit

/-- wifi.rs disconnect_from_wifi loop body.  i and j count the
is_connected and disconnect calls issued so far; the incoming fuel is
MAX_DISCONNECT_RETRIES - retries, so the source guard
retries == MAX_DISCONNECT_RETRIES - 1 holds exactly when the incoming fuel
is 1 — in the fuel + 1 pattern below, when the binder fuel is 0 — and the
loop exit retries = MAX_DISCONNECT_RETRIES is incoming fuel 0.  Each arm
mirrors one source branch: already disconnected (ok false) and every
Err(Disconnected) return Ok; a failed disconnect call on the last retry
returns the Disconnect error; exhausting the loop (reached only through the
other fall-through branches) returns Verification with the attempt
count. -/
def disconnect_from_wifi_go (env : DisconnectEnv) : ℕ → ℕ → ℕ → Except WifiDisconnectError Unit
  | _, _, 0 => .error (.verification MAX_DISCONNECT_RETRIES)
  | i, j, fuel + 1 =>
    match env.is_connected i with
    | .error .disconnected => .ok ()
    | .error .other => disconnect_from_wifi_go env (i + 1) j fuel
    | .ok false => .ok ()
    | .ok true =>
      match env.disconnect j with
      | .error .disconnected => .ok ()
      | .error .other =>
        if fuel = 0 then .error .disconnectFailed
        else disconnect_from_wifi_go env (i + 1) (j + 1) fuel
      | .ok () =>
        match env.is_connected (i + 1) with
        | .ok false => .ok ()
        | .error .disconnected => .ok ()
        | .ok true => disconnect_from_wifi_go env (i + 2) (j + 1) fuel
        | .error .other => disconnect_from_wifi_go env (i + 2) (j + 1) fuel

/-- wifi.rs disconnect_from_wifi: the retry loop started at retries = 0. -/
def disconnect_from_wifi (env : DisconnectEnv) : Except WifiDisconnectError Unit :=
  disconnect_from_wifi_go env 0 0 MAX_DISCONNECT_RETRIES

/-- The two ways main.rs leaves disconnect_wifi_and_put_device_to_sleep:
enter_deep_sleep(lpwr, ...) or software_reset(); both never return. -/
inductive SleepAction
  | enterDeepSleep | softwareReset
  deriving DecidableEq

/-- main.rs disconnect_wifi_and_put_device_to_sleep: on Ok from
disconnect_from_wifi it calls enter_deep_sleep, on Err it calls
software_reset. -/
def disconnect_wifi_and_put_device_to_sleep (env : DisconnectEnv) : SleepAction :=
  match disconnect_from_wifi env with
  | .ok () => .enterDeepSleep
  | .error _ => .softwareReset

/-- C1: whenever disconnect_from_wifi reports failure (either error, in
particular after exhausting its MAX_DISCONNECT_RETRIES attempts),
disconnect_wifi_and_put_device_to_sleep issues a software reset and deep
sleep is not entered; deep sleep is entered exactly on the branch where the
disconnect reported success. -/
theorem C1_disconnect_reset_path (env : DisconnectEnv) :
    (∀ e, disconnect_from_wifi env = .error e →
      disconnect_wifi_and_put_device_to_sleep env = .softwareReset) ∧
    (disconnect_wifi_and_put_device_to_sleep env = .enterDeepSleep ↔
      disconnect_from_wifi env = .ok ()) := by
  refine ⟨?_, ?_⟩
  · intro e he
    unfold disconnect_wifi_and_put_device_to_sleep
    rw [he]
  · unfold disconnect_wifi_and_put_device_to_sleep
    rcases h : disconnect_from_wifi env with e | u
    · show SleepAction.softwareReset = SleepAction.enterDeepSleep ↔
        Except.error e = Except.ok ()
      simp
    · cases u
      show SleepAction.enterDeepSleep = SleepAction.enterDeepSleep ↔
        (Except.ok () : Except WifiDisconnectError Unit) = Except.ok ()
      simp

/-- Witness for C1: a controller that always reports connected and whose
disconnect calls always fail with a non-Disconnected error exhausts all
retries; the result is the disconnect error and the action taken is a
software reset, not deep sleep. -/
theorem C1_disconnect_reset_path_witness :
    disconnect_from_wifi ⟨fun _ => .ok true, fun _ => .error .other⟩
      = .error .disconnectFailed ∧
    disconnect_wifi_and_put_device_to_sleep ⟨fun _ => .ok true, fun _ => .error .other⟩
      = .softwareReset :=
  ⟨rfl, (C1_disconnect_reset_path ⟨fun _ => .ok true, fun _ => .error .other⟩).1
    .disconnectFailed rfl⟩

/-- wifi.rs WifiConnectionError, restricted to the variant the retry loop
can produce after the controller and stack exist. -/
inductive WifiConnectionError
  | wifiConnectionFailed
  deriving DecidableEq

/-- wifi.rs WIFI_RECONNECT_ATTEMPTS. -/
def WIFI_RECONNECT_ATTEMPTS : ℕ := 3

/-- wifi.rs WIFI_RECONNECT_DELAY_MS. -/
def WIFI_RECONNECT_DELAY_MS : ℕ := 100

/-- Environment for one connection attempt: the result of
connect_to_network and, when that succeeds, the result of the
is_connected() stability check performed after the link-up, IP and
stabilization waits.  The link-up and IP polls are fixed-delay waits the
model assumes terminate; they occur inside one attempt and do not affect
the attempt count. -/
structure ConnectAttemptEnv where
  connect_result : Except EspWifiErr Unit
  is_connected_after_waits : Except EspWifiErr Bool

/-- Events recorded by the connection retry loop: one entry per
connect_to_network call, and one entry per between-attempt retry delay. -/
inductive ConnectTraceEvent
  | connectAttempt
  | retryDelay (ms : ℕ)
  deriving DecidableEq

/-- wifi.rs connect_to_wifi retry loop.  fuel is
WIFI_RECONNECT_ATTEMPTS - attempts; env is indexed by attempt number.  An
attempt succeeds when connect_to_network returns Ok and the stability check
is Ok(true); any other outcome falls through to attempts += 1, with a
retry delay inserted whenever further attempts remain (the source
condition attempts < WIFI_RECONNECT_ATTEMPTS after the increment, i.e.
fuel > 0).  Exhaustion returns WifiConnectionFailed. -/
def connect_to_wifi_go (env : ℕ → ConnectAttemptEnv) :
    ℕ → Except WifiConnectionError Unit × List ConnectTraceEvent
  | 0 => (.error .wifiConnectionFailed, [])
  | fuel + 1 =>
    -- the failure arms all fall through to attempts += 1 and, when further
    -- attempts remain, the retry delay; the block is repeated per arm only
    -- because the embedding avoids a local binding
    match (env (WIFI_RECONNECT_ATTEMPTS - (fuel + 1))).connect_result with
    | .error _ =>
      if fuel = 0 then (.error .wifiConnectionFailed, [ConnectTraceEvent.connectAttempt])
      else ((connect_to_wifi_go env fuel).1, ConnectTraceEvent.connectAttempt ::
        ConnectTraceEvent.retryDelay WIFI_RECONNECT_DELAY_MS :: (connect_to_wifi_go env fuel).2)
    | .ok () =>
      match (env (WIFI_RECONNECT_ATTEMPTS - (fuel + 1))).is_connected_after_waits with
      | .ok true => (.ok (), [ConnectTraceEvent.connectAttempt])
      | .ok false =>
        if fuel = 0 then (.error .wifiConnectionFailed, [ConnectTraceEvent.connectAttempt])
        else ((connect_to_wifi_go env fuel).1, ConnectTraceEvent.connectAttempt ::
          ConnectTraceEvent.retryDelay WIFI_RECONNECT_DELAY_MS :: (connect_to_wifi_go env fuel).2)
      | .error _ =>
        if fuel = 0 then (.error .wifiConnectionFailed, [ConnectTraceEvent.connectAttempt])
        else ((connect_to_wifi_go env fuel).1, ConnectTraceEvent.connectAttempt ::
          ConnectTraceEvent.retryDelay WIFI_RECONNECT_DELAY_MS :: (connect_to_wifi_go env fuel).2)

/-- wifi.rs connect_to_wifi: the retry loop started at attempts = 0,
returning the result together with the recorded attempt/delay trace. -/
def connect_to_wifi (env : ℕ → ConnectAttemptEnv) :
    Except WifiConnectionError Unit × List ConnectTraceEvent :=
  connect_to_wifi_go env WIFI_RECONNECT_ATTEMPTS

/-- Number of connect_to_network calls recorded in a trace. -/
def count_attempts (t : List ConnectTraceEvent) : ℕ :=
  t.countP (fun e => e = ConnectTraceEvent.connectAttempt)

/-- No two connection attempts are adjacent in the trace: every pair of
consecutive attempts has a retry delay between them. -/
def attempts_separated (t : List ConnectTraceEvent) : Prop :=
  List.Chain' (fun a b => ¬(a = ConnectTraceEvent.connectAttempt ∧
    b = ConnectTraceEvent.connectAttempt)) t

/-- An attempt the source accepts: connect_to_network succeeded and the
stability check returned Ok(true). -/
def attempt_succeeds (env : ℕ → ConnectAttemptEnv) (i : ℕ) : Prop :=
  (env i).connect_result = .ok () ∧ (env i).is_connected_after_waits = .ok true

theorem connect_to_wifi_go_spec (env : ℕ → ConnectAttemptEnv) :
    ∀ fuel, fuel ≤ WIFI_RECONNECT_ATTEMPTS →
    count_attempts (connect_to_wifi_go env fuel).2 ≤ fuel ∧
    attempts_separated (connect_to_wifi_go env fuel).2 ∧
    ((connect_to_wifi_go env fuel).1 = .ok () →
      ∃ i, WIFI_RECONNECT_ATTEMPTS - fuel ≤ i ∧ i < WIFI_RECONNECT_ATTEMPTS ∧
        attempt_succeeds env i) ∧
    ((∀ i, WIFI_RECONNECT_ATTEMPTS - fuel ≤ i → i < WIFI_RECONNECT_ATTEMPTS →
        ¬attempt_succeeds env i) →
      (connect_to_wifi_go env fuel).1 = .error .wifiConnectionFailed ∧
      count_attempts (connect_to_wifi_go env fuel).2 = fuel) := by
  intro fuel
  induction fuel with
  | zero =>
    intro _
    refine ⟨by simp [connect_to_wifi_go, count_attempts], ?_, ?_, ?_⟩
    · simp [connect_to_wifi_go, attempts_separated]
    · intro h; exact absurd h (by simp [connect_to_wifi_go])
    · intro _; exact ⟨rfl, by simp [connect_to_wifi_go, count_attempts]⟩
  | succ fuel ih =>
    intro hfuel
    have ih := ih (by omega)
    set i0 := WIFI_RECONNECT_ATTEMPTS - (fuel + 1) with hi0
    have hi0lt : i0 < WIFI_RECONNECT_ATTEMPTS := by
      simp only [hi0, WIFI_RECONNECT_ATTEMPTS] at *; omega
    by_cases hsucc : attempt_succeeds env i0
    · obtain ⟨hc, hs⟩ := hsucc
      have hgo : connect_to_wifi_go env (fuel + 1)
          = (.ok (), [ConnectTraceEvent.connectAttempt]) := by
        rw [connect_to_wifi_go, ← hi0, hc, hs]
      rw [hgo]
      refine ⟨by simp [count_attempts], by simp [attempts_separated], ?_, ?_⟩
      · intro _
        exact ⟨i0, by omega, hi0lt, hc, hs⟩
      · intro hall
        exact absurd ⟨hc, hs⟩ (hall i0 (by omega) hi0lt)
    · have hgo : connect_to_wifi_go env (fuel + 1)
          = if fuel = 0 then
              ((.error .wifiConnectionFailed : Except WifiConnectionError Unit),
                [ConnectTraceEvent.connectAttempt])
            else
              ((connect_to_wifi_go env fuel).1, ConnectTraceEvent.connectAttempt ::
                ConnectTraceEvent.retryDelay WIFI_RECONNECT_DELAY_MS ::
                (connect_to_wifi_go env fuel).2) := by
        rw [connect_to_wifi_go, ← hi0]
        rcases hc : (env i0).connect_result with e | u
        · rfl
        · cases u
          rcases hs : (env i0).is_connected_after_waits with e | b
          · rfl
          · cases b
            · rfl
            · exact absurd ⟨hc, hs⟩ hsucc
      by_cases hf0 : fuel = 0
      · subst hf0
        rw [hgo, if_pos rfl]
        refine ⟨by simp [count_attempts], by simp [attempts_separated], ?_, ?_⟩
        · intro h; exact absurd h (by simp)
        · intro _; exact ⟨rfl, by simp [count_attempts]⟩
      · rw [hgo, if_neg hf0]
        obtain ⟨ihcount, ihsep, ihok, ihfail⟩ := ih
        refine ⟨?_, ?_, ?_, ?_⟩
        · simpa [count_attempts] using ihcount
        · refine List.chain'_cons.mpr ⟨by simp, ?_⟩
          rcases htail : (connect_to_wifi_go env fuel).2 with _ | ⟨hd, tl⟩
          · simp [attempts_separated]
          · refine List.chain'_cons.mpr ⟨by simp, ?_⟩
            have := ihsep
            rw [htail] at this
            exact this
        · intro hok
          obtain ⟨i, hge, hlt, hs⟩ := ihok hok
          exact ⟨i, by omega, hlt, hs⟩
        · intro hall
          have hrest := ihfail (fun i hge hlt => hall i (by omega) hlt)
          refine ⟨hrest.1, ?_⟩
          simp [count_attempts] at hrest ⊢
          omega

/-- C3: connect_to_wifi makes at most WIFI_RECONNECT_ATTEMPTS = 3
connection attempts, consecutive attempts are always separated by the retry
delay, a success is never silent (it requires some attempt whose connect
and stability check both succeeded), and when every attempt fails the
result is the exhaustion error (WifiConnectionError::WifiConnectionFailed
in the source, the error the spec names ConnectionError::Exhausted) after
exactly 3 attempts. -/
theorem C3_connect_bounded_retries (env : ℕ → ConnectAttemptEnv) :
    count_attempts (connect_to_wifi env).2 ≤ WIFI_RECONNECT_ATTEMPTS ∧
    attempts_separated (connect_to_wifi env).2 ∧
    ((connect_to_wifi env).1 = .ok () →
      ∃ i, i < WIFI_RECONNECT_ATTEMPTS ∧ attempt_succeeds env i) ∧
    ((∀ i, i < WIFI_RECONNECT_ATTEMPTS → ¬attempt_succeeds env i) →
      (connect_to_wifi env).1 = .error .wifiConnectionFailed ∧
      count_attempts (connect_to_wifi env).2 = WIFI_RECONNECT_ATTEMPTS) := by
  obtain ⟨h1, h2, h3, h4⟩ := connect_to_wifi_go_spec env WIFI_RECONNECT_ATTEMPTS le_rfl
  refine ⟨h1, h2, ?_, ?_⟩
  · intro hok
    obtain ⟨i, _, hlt, hs⟩ := h3 hok
    exact ⟨i, hlt, hs⟩
  · intro hall
    exact h4 (fun i _ hlt => hall i hlt)

/-- Witness for C3: an environment where every connect_to_network call
fails yields the exhaustion error after exactly 3 recorded attempts. -/
theorem C3_connect_bounded_retries_witness :
    (connect_to_wifi (fun _ => ⟨.error .other, .ok false⟩)).1
      = .error .wifiConnectionFailed ∧
    count_attempts (connect_to_wifi (fun _ => ⟨.error .other, .ok false⟩)).2 = 3 :=
  (C3_connect_bounded_retries (fun _ => ⟨.error .other, .ok false⟩)).2.2.2
    (fun i _ hs => by exact absurd hs.1 (by simp))

/-! ## Acquisition Pipeline: sampling and averaging
(crates/app/src/sensor.rs, crates/app/src/sensor_data.rs)

f32 sensor arithmetic is modelled over the rationals.  The esp Rng is a
stream of u32 draws (an arbitrary ℕ stream reduced mod 2^32) with an
explicit cursor.  Each sensor read is an environment-provided result: ok
with the decoded sample, or an error (I²C failure, or a missing measurement
rejected by Bme280Data::try_from).
-/

/-- sensor_data.rs NUMBER_OF_SAMPLES. -/
def NUMBER_OF_SAMPLES : ℕ := 5

/-- sensor_data.rs Bme280Data (temperature °C, humidity %, pressure hPa). -/
structure Bme280Data where
  temperature : ℚ
  humidity : ℚ
  pressure : ℚ
  deriving DecidableEq

/-- Ads1115Data as sensor.rs constructs and averages it (relative
brightness %, battery V, pressure-sensor supply V, liquid height m). -/
structure Ads1115Data where
  enclosure_relative_brightness : ℚ
  battery_voltage : ℚ
  pressure_sensor_voltage : ℚ
  height_above_sensor : ℚ
  deriving DecidableEq

/-- 2^32, the modulus of the u32 values Rng::random yields. -/
def U32_MODULUS : ℕ := 4294967296

/-- u32::MAX, the divisor of the seed normalization in Bme280Data::random. -/
def U32_MAX : ℕ := 4294967295

/-- esp_hal Rng: an arbitrary stream of draws with a cursor; random()
returns the next u32. -/
structure Rng where
  stream : ℕ → ℕ
  index : ℕ

/-- One rng.random() call: the next u32 value and the advanced rng. -/
def Rng.random (rng : Rng) : ℕ × Rng :=
  (rng.stream rng.index % U32_MODULUS, ⟨rng.stream, rng.index + 1⟩)

/-- sensor_data.rs Bme280Data::random: three successive rng.random() draws,
each normalized to a seed in [0, 1] by dividing by u32::MAX, then scaled to
temperature seed * (30 - 15) + 15, humidity seed * (80 - 20) + 20, pressure
seed * (1010 - 990) + 990.  The three draws are written as chained
random() calls in evaluation order. -/
def Bme280Data.random (rng : Rng) : Bme280Data × Rng :=
  (⟨((rng.random.1 : ℚ) / (U32_MAX : ℚ)) * (30 - 15) + 15,
    ((rng.random.2.random.1 : ℚ) / (U32_MAX : ℚ)) * (80 - 20) + 20,
    ((rng.random.2.random.2.random.1 : ℚ) / (U32_MAX : ℚ)) * (1010 - 990) + 990⟩,
   rng.random.2.random.2.random.2)

/-- A failed sensor read: an I²C bus error, or a sample with a missing
measurement (rejected by Bme280Data::try_from). -/
inductive SensorReadError
  | i2c | missingMeasurement
  deriving DecidableEq

/-- sensor.rs sample_environmental_data: a successful read is returned
unchanged (always Ok in the source); a failed read is replaced via
unwrap_or_else by Bme280Data::random. -/
def sample_environmental_data (read_result : Except SensorReadError Bme280Data)
    (rng : Rng) : Bme280Data × Rng :=
  match read_result with
  | .ok sample => (sample, rng)
  | .error _ => Bme280Data.random rng

/-- The sample-collection loop of sensor.rs read_bme280: one
sample_environmental_data call per iteration, every iteration pushes the
returned sample (the push cannot fail: the Vec capacity equals the
iteration count). -/
def collect_bme280_samples :
    List (Except SensorReadError Bme280Data) → Rng → List Bme280Data × Rng
  | [], rng => ([], rng)
  | r :: rest, rng =>
    ((sample_environmental_data r rng).1 ::
        (collect_bme280_samples rest (sample_environmental_data r rng).2).1,
      (collect_bme280_samples rest (sample_environmental_data r rng).2).2)

/-- The sample-collection loop of sensor.rs read_ads1115: an Ok sample is
pushed, a failed sample is logged and dropped (no substitute is pushed). -/
def collect_ads1115_samples : List (Except SensorReadError Ads1115Data) → List Ads1115Data
  | [] => []
  | .ok r :: rest => r :: collect_ads1115_samples rest
  | .error _ :: rest => collect_ads1115_samples rest

/-- The averaging tail of read_bme280: per-field running sums over the
collected samples, each divided by the number of collected samples. -/
def average_bme280 (collected : List Bme280Data) : Bme280Data :=
  ⟨collected.foldl (fun acc d => acc + d.temperature) 0 / (collected.length : ℚ),
   collected.foldl (fun acc d => acc + d.humidity) 0 / (collected.length : ℚ),
   collected.foldl (fun acc d => acc + d.pressure) 0 / (collected.length : ℚ)⟩

/-- The averaging tail of read_ads1115: per-field running sums over the
collected samples, each divided by the number of collected samples. -/
def average_ads1115 (collected : List Ads1115Data) : Ads1115Data :=
  ⟨collected.foldl (fun acc d => acc + d.enclosure_relative_brightness) 0 / (collected.length : ℚ),
   collected.foldl (fun acc d => acc + d.battery_voltage) 0 / (collected.length : ℚ),
   collected.foldl (fun acc d => acc + d.pressure_sensor_voltage) 0 / (collected.length : ℚ),
   collected.foldl (fun acc d => acc + d.height_above_sensor) 0 / (collected.length : ℚ)⟩

/-- sensor.rs read_bme280, sampling and averaging stage. -/
def read_bme280 (reads : List (Except SensorReadError Bme280Data)) (rng : Rng) : Bme280Data :=
  average_bme280 (collect_bme280_samples reads rng).1

/-- sensor.rs read_ads1115, sampling and averaging stage (after the
stabilization wait succeeded). -/
def read_ads1115 (reads : List (Except SensorReadError Ads1115Data)) : Ads1115Data :=
  average_ads1115 (collect_ads1115_samples reads)

/-- Arithmetic mean of a list of rationals. -/
def list_mean (l : List ℚ) : ℚ := l.sum / (l.length : ℚ)

theorem foldl_add_eq_sum {α : Type} (f : α → ℚ) (l : List α) :
    ∀ a : ℚ, l.foldl (fun acc d => acc + f d) a = a + (l.map f).sum := by
  induction l with
  | nil => intro a; simp
  | cons x xs ih =>
    intro a
    simp only [List.foldl_cons, List.map_cons, List.sum_cons, ih]
    ring

/-- C8 counterexample: on the analog path a single failed sample among the
NUMBER_OF_SAMPLES = 5 reads is dropped, not replaced by a synthetic value:
the collected sample set is exactly the four Ok samples, so the reduction
does not run over n collected samples. -/
theorem C8_substitution_counterexample :
    collect_ads1115_samples
      [.ok ⟨1, 1, 1, 1⟩, .error .i2c, .ok ⟨2, 2, 2, 2⟩, .ok ⟨3, 3, 3, 3⟩, .ok ⟨4, 4, 4, 4⟩]
      = [⟨1, 1, 1, 1⟩, ⟨2, 2, 2, 2⟩, ⟨3, 3, 3, 3⟩, ⟨4, 4, 4, 4⟩] ∧
    (collect_ads1115_samples
      [.ok ⟨1, 1, 1, 1⟩, .error .i2c, .ok ⟨2, 2, 2, 2⟩, .ok ⟨3, 3, 3, 3⟩, .ok ⟨4, 4, 4, 4⟩]).length
      ≠ NUMBER_OF_SAMPLES := by
  exact ⟨rfl, by decide⟩

/-- C8 (amended): on the environmental path every failed sample is replaced
by Bme280Data::random — a bounded pseudo-random synthetic value with
temperature in [15, 30] °C, humidity in [20, 80] %, pressure in
[990, 1010] hPa — so the environmental reduction always runs over as many
samples as reads; on the analog path, by contrast, a failed sample is
dropped and the reduction runs over the Ok samples only. -/
theorem C8_sample_substitution :
    (∀ (reads : List (Except SensorReadError Bme280Data)) (rng : Rng),
      ((collect_bme280_samples reads rng).1).length = reads.length) ∧
    (∀ (e : SensorReadError) (rng : Rng),
      sample_environmental_data (.error e) rng = Bme280Data.random rng) ∧
    (∀ rng : Rng,
      15 ≤ (Bme280Data.random rng).1.temperature ∧
      (Bme280Data.random rng).1.temperature ≤ 30 ∧
      20 ≤ (Bme280Data.random rng).1.humidity ∧
      (Bme280Data.random rng).1.humidity ≤ 80 ∧
      990 ≤ (Bme280Data.random rng).1.pressure ∧
      (Bme280Data.random rng).1.pressure ≤ 1010) ∧
    (∀ reads : List (Except SensorReadError Ads1115Data),
      (collect_ads1115_samples reads).length
        = reads.countP (fun r => r.isOk)) := by
  have hseed : ∀ n : ℕ,
      0 ≤ ((n % U32_MODULUS : ℕ) : ℚ) / (U32_MAX : ℚ) ∧
      ((n % U32_MODULUS : ℕ) : ℚ) / (U32_MAX : ℚ) ≤ 1 := by
    intro n
    constructor
    · positivity
    · rw [div_le_one (by norm_num [U32_MAX])]
      have h1 : n % U32_MODULUS ≤ U32_MAX := by
        have := Nat.mod_lt n (y := U32_MODULUS) (by norm_num [U32_MODULUS])
        simp only [U32_MODULUS, U32_MAX] at *
        omega
      exact_mod_cast h1
  refine ⟨?_, ?_, ?_, ?_⟩
  · intro reads
    induction reads with
    | nil => intro rng; rfl
    | cons r rest ih =>
      intro rng
      simp only [collect_bme280_samples, List.length_cons]
      rw [ih]
  · intro e rng; rfl
  · intro rng
    simp only [Bme280Data.random, Rng.random]
    obtain ⟨h10, h11⟩ := hseed (rng.stream rng.index)
    obtain ⟨h20, h21⟩ := hseed (rng.stream (rng.index + 1))
    obtain ⟨h30, h31⟩ := hseed (rng.stream (rng.index + 1 + 1))
    refine ⟨by nlinarith, by nlinarith, by nlinarith, by nlinarith, by nlinarith, by nlinarith⟩
  · intro reads
    induction reads with
    | nil => rfl
    | cons r rest ih =>
      rcases r with e | s
      · simpa [collect_ads1115_samples, List.countP_cons, Except.isOk,
          Except.toBool] using ih
      · simpa [collect_ads1115_samples, List.countP_cons, Except.isOk,
          Except.toBool] using ih

/-- C9: every field of the averaged reading of read_bme280 and read_ads1115
equals the arithmetic mean of that field over the collected samples, the
divisor being the number of collected samples (on the analog path possibly
fewer than the NUMBER_OF_SAMPLES = 5 reads, since failed samples are
dropped).  Exact equality over ℚ, hence within any floating-point
tolerance.  The nonemptiness hypotheses exclude the degenerate
zero-collected case, where the source divides by zero in f32. -/
theorem C9_averaged_reading_mean (reads_b : List (Except SensorReadError Bme280Data))
    (rng : Rng) (reads_a : List (Except SensorReadError Ads1115Data))
    (hb : reads_b ≠ []) (ha : collect_ads1115_samples reads_a ≠ []) :
    (read_bme280 reads_b rng).temperature
      = list_mean (((collect_bme280_samples reads_b rng).1).map (fun d => d.temperature)) ∧
    (read_bme280 reads_b rng).humidity
      = list_mean (((collect_bme280_samples reads_b rng).1).map (fun d => d.humidity)) ∧
    (read_bme280 reads_b rng).pressure
      = list_mean (((collect_bme280_samples reads_b rng).1).map (fun d => d.pressure)) ∧
    (read_ads1115 reads_a).enclosure_relative_brightness
      = list_mean ((collect_ads1115_samples reads_a).map
          (fun d => d.enclosure_relative_brightness)) ∧
    (read_ads1115 reads_a).battery_voltage
      = list_mean ((collect_ads1115_samples reads_a).map (fun d => d.battery_voltage)) ∧
    (read_ads1115 reads_a).pressure_sensor_voltage
      = list_mean ((collect_ads1115_samples reads_a).map (fun d => d.pressure_sensor_voltage)) ∧
    (read_ads1115 reads_a).height_above_sensor
      = list_mean ((collect_ads1115_samples reads_a).map (fun d => d.height_above_sensor)) := by
  unfold read_bme280 read_ads1115 average_bme280 average_ads1115 list_mean
  refine ⟨?_, ?_, ?_, ?_, ?_, ?_, ?_⟩ <;>
    simp [foldl_add_eq_sum]

/-- Witness for C9: two environmental reads averaging temperature (1 + 3)/2
and three analog reads with one failure averaging battery voltage
(1 + 3)/2. -/
theorem C9_averaged_reading_mean_witness :
    (read_bme280 [.ok ⟨1, 2, 3⟩, .ok ⟨3, 6, 9⟩] ⟨fun _ => 0, 0⟩).temperature = 2 ∧
    (read_ads1115 [.ok ⟨1, 1, 1, 1⟩, .error .i2c, .ok ⟨3, 3, 3, 3⟩]).battery_voltage = 2 := by
  have h := C9_averaged_reading_mean [.ok ⟨1, 2, 3⟩, .ok ⟨3, 6, 9⟩] ⟨fun _ => 0, 0⟩
    [.ok ⟨1, 1, 1, 1⟩, .error .i2c, .ok ⟨3, 3, 3, 3⟩] (by simp) (by decide)
  refine ⟨?_, ?_⟩
  · rw [h.1]
    norm_num [list_mean, collect_bme280_samples, sample_environmental_data]
  · rw [h.2.2.2.2.1]
    norm_num [list_mean, collect_ads1115_samples]

end WaterTank
